import Mathlib

/-!
Shallow embedding of the anomaly-detection core of the crop-monitoring
platform: the detector (`ml_module/detector.py`), the preprocessing and
validation helpers (`ml_module/preprocessing.py`), the threshold tables
(`ml_module/config.py`), and the anomaly scenario injector
(`simulator/anomaly_scenarios.py`).

Values carried by sensor readings are modelled as rationals; the
scenario formulas that use the real exponential are modelled over the
reals.  Times are rationals (hours or minutes since simulation start),
mirroring the datetime arithmetic of the source.
-/

namespace CropMonitor

/-- A sensor reading as the detector sees it: `sensor_type` and `value`
(`SensorReading` fields used by `ml_module`). -/
structure SReading where
  sensor_type : String
  value : ℚ
deriving DecidableEq

/-- Absolute physical bounds table of `validate_sensor_reading`
(`ml_module/preprocessing.py`, lines 184-188). -/
def sensorBounds (st : String) : Option (ℚ × ℚ) :=
  if st = "moisture" then some (0, 100)
  else if st = "temperature" then some (-20, 60)
  else if st = "humidity" then some (0, 100)
  else none

/-- `validate_sensor_reading` (`ml_module/preprocessing.py`, lines 170-198):
returns `(is_valid, error_message)`. -/
def validateSensorReading (r : SReading) : Bool × Option String :=
  match sensorBounds r.sensor_type with
  | none => (false, some ("Unknown sensor type: " ++ r.sensor_type))
  | some (lo, hi) =>
    if r.value < lo ∨ r.value > hi then
      (false, some (r.sensor_type ++ " value " ++ toString r.value ++ " out of bounds"))
    else
      (true, none)

/-- One row of the `THRESHOLDS` table (`ml_module/config.py`, lines 36-61). -/
structure ThresholdTable where
  critical_low : ℚ
  critical_high : ℚ
  normal_min : ℚ
  normal_max : ℚ
  sudden_drop : ℚ
  sudden_spike : ℚ
deriving DecidableEq

/-- `THRESHOLDS` (`ml_module/config.py`, lines 36-61). -/
def THRESHOLDS (st : String) : Option ThresholdTable :=
  if st = "moisture" then some ⟨35, 85, 45, 75, 10, 15⟩
  else if st = "temperature" then some ⟨10, 35, 18, 28, 5, 8⟩
  else if st = "humidity" then some ⟨30, 85, 45, 75, 15, 20⟩
  else none

/-- The verdict dictionary returned by `AnomalyDetector.predict` and its
helpers; keys that a path omits are `none`. -/
structure Verdict where
  is_anomaly : Bool
  confidence : ℚ
  anomaly_score : Option ℚ
  anomaly_type : Option String
  severity : Option String
  explanation : String
deriving DecidableEq

/-- `AnomalyDetector._rule_based_detection` (`ml_module/detector.py`,
lines 199-258). -/
def ruleBasedDetection (r : SReading) : Verdict :=
  match THRESHOLDS r.sensor_type with
  | none =>
    { is_anomaly := false, confidence := 0, anomaly_score := none,
      anomaly_type := none, severity := none,
      explanation := "Unknown sensor type: " ++ r.sensor_type }
  | some t =>
    if r.value < t.critical_low then
      let ty :=
        if r.sensor_type = "moisture" then "irrigation_failure"
        else if r.sensor_type = "temperature" then "cold_stress"
        else "dry_stress"
      { is_anomaly := true, confidence := 9/10, anomaly_score := none,
        anomaly_type := some ty, severity := some "high",
        explanation := r.sensor_type ++ " critically low: " ++ toString r.value }
    else if r.value > t.critical_high then
      let ty :=
        if r.sensor_type = "temperature" then "heat_stress"
        else if r.sensor_type = "humidity" then "excess_moisture"
        else "sensor_malfunction"
      { is_anomaly := true, confidence := 9/10, anomaly_score := none,
        anomaly_type := some ty, severity := some "high",
        explanation := r.sensor_type ++ " critically high: " ++ toString r.value }
    else
      { is_anomaly := false, confidence := 0, anomaly_score := none,
        anomaly_type := none, severity := none,
        explanation := "Reading within normal range (rule-based check)" }

/-- `AnomalyDetector._classify_anomaly` (`ml_module/detector.py`,
lines 260-289): `(anomaly_type, severity, explanation)`.  The source uses
`THRESHOLDS.get(sensor_type, {})` with per-key defaults 0 and 100. -/
def classifyAnomaly (r : SReading) : String × String × String :=
  let tl := ((THRESHOLDS r.sensor_type).map ThresholdTable.critical_low).getD 0
  let th := ((THRESHOLDS r.sensor_type).map ThresholdTable.critical_high).getD 100
  if r.value < tl then
    if r.sensor_type = "moisture" then
      ("irrigation_failure", "high", "Soil moisture critically low: " ++ toString r.value)
    else if r.sensor_type = "temperature" then
      ("cold_stress", "medium", "Temperature critically low: " ++ toString r.value)
    else
      ("dry_stress", "medium", "Humidity critically low: " ++ toString r.value)
  else if r.value > th then
    if r.sensor_type = "temperature" then
      ("heat_stress", "high", "Temperature critically high: " ++ toString r.value)
    else if r.sensor_type = "humidity" then
      ("excess_moisture", "medium", "Humidity critically high: " ++ toString r.value)
    else
      ("sensor_malfunction", "low", "Sensor reading abnormally high: " ++ toString r.value)
  else
    ("sensor_anomaly", "low", "Unusual " ++ r.sensor_type ++ " reading: " ++ toString r.value)

/-- `AnomalyDetector._score_to_confidence` (`ml_module/detector.py`,
lines 291-304): `np.clip(-score, 0, 1)`. -/
def scoreToConfidence (score : ℚ) : ℚ :=
  min (max (-score) 0) 1

/-- The trained scorer of `predict`: feature preparation, scaling and
ensemble inference bundled as one fallible call producing
`(prediction, score)` with prediction `-1` marking an anomaly
(`ml_module/detector.py`, lines 158-165). -/
abbrev Scorer : Type := SReading → Except String (Int × ℚ)

/-- `AnomalyDetector.predict` (`ml_module/detector.py`, lines 125-197):
validation first; without a model the rule-based fallback; a scorer error
also degrades to the fallback. -/
def predict (model : Option Scorer) (r : SReading) : Verdict :=
  let v := validateSensorReading r
  if v.1 = false then
    { is_anomaly := true, confidence := 1, anomaly_score := none,
      anomaly_type := some "sensor_malfunction", severity := some "high",
      explanation := "Invalid sensor reading: " ++ v.2.getD "" }
  else
    match model with
    | none => ruleBasedDetection r
    | some scorer =>
      match scorer r with
      | Except.error _ => ruleBasedDetection r
      | Except.ok (pred, score) =>
        let isAnom : Bool := pred = -1
        let conf := scoreToConfidence score
        if isAnom then
          let c := classifyAnomaly r
          { is_anomaly := true, confidence := conf, anomaly_score := some score,
            anomaly_type := some c.1, severity := some c.2.1, explanation := c.2.2 }
        else
          { is_anomaly := false, confidence := conf, anomaly_score := some score,
            anomaly_type := none, severity := none,
            explanation := "Sensor reading within normal range" }

/-- `AnomalyDetector.train` (`ml_module/detector.py`, lines 49-123) as a
state transformer on the held model: the sample-count gate precedes every
mutation, so a failed call leaves the held model untouched; a successful
call replaces it with a freshly fitted model.  Fitting (scaler plus
isolation forest, an external library) is a parameter. -/
def trainStep {Model : Type} (fit : List SReading → Model)
    (held : Option Model) (readings : List SReading) :
    Option Model × Except String Unit :=
  if readings.length < 50 then
    (held, Except.error ("Insufficient training data. Need at least 50 samples, got "
      ++ toString readings.length))
  else
    (some (fit readings), Except.ok ())

/-! ### Feature engineering (`ml_module/preprocessing.py`, lines 115-163)

A group (one plot and sensor type) is a list of `(timestamp, value)`
pairs ordered by timestamp, the timestamp in minutes.  Undefined pandas
results (`NaN`) are `none`; the `fillna` step of lines 159-161 and the
`np.nan_to_num` coercion replace them by 0 before anything is handed to
the scorer. -/

/-- The trailing rolling window of `rolling(window=12, min_periods=1)`
at position `i`: the up-to-12 values ending at `i`. -/
def rollingWindow (vals : List ℚ) (i : ℕ) : List ℚ :=
  (vals.take (i + 1)).drop (i + 1 - 12)

/-- Mean of a list of values. -/
def listMean (l : List ℚ) : ℚ :=
  l.sum / l.length

/-- Sample variance with `ddof = 1` (the pandas default for `.std()`). -/
def sampleVariance (l : List ℚ) : ℚ :=
  (l.map (fun x => (x - listMean l) ^ 2)).sum / ((l.length : ℚ) - 1)

/-- `rolling_mean_6h`: defined whenever the window is nonempty
(`min_periods=1`). -/
def rollingMean6h (vals : List ℚ) (i : ℕ) : Option ℚ :=
  let w := rollingWindow vals i
  if w.length = 0 then none else some (listMean w)

/-- `rolling_std_6h`: pandas `.std()` is `NaN` on a window of fewer than
two samples (division by `ddof`), hence `none` there. -/
noncomputable def rollingStd6h (vals : List ℚ) (i : ℕ) : Option ℝ :=
  let w := rollingWindow vals i
  if w.length < 2 then none else some (Real.sqrt (sampleVariance w))

/-- `value_change_1h`: `diff(periods=2)`, `NaN` on the first two
positions. -/
def valueChange1h (vals : List ℚ) (i : ℕ) : Option ℚ :=
  if i < 2 then none else some (vals.getD i 0 - vals.getD (i - 2) 0)

/-- Calendar-day bucket of `resample('24H')` for a timestamp in
minutes. -/
def dayBucket (t : ℕ) : ℕ :=
  t / 1440

/-- `daily_mean`: the mean over all rows of the group sharing the same
24-hour bucket as row `i`. -/
def dailyMean (rows : List (ℕ × ℚ)) (i : ℕ) : Option ℚ :=
  let t := (rows.getD i (0, 0)).1
  let sameDay := rows.filter (fun p => dayBucket p.1 = dayBucket t)
  if sameDay.length = 0 then none else some (listMean (sameDay.map Prod.snd))

/-- One engineered feature row, `none` marking a pandas `NaN`. -/
structure EngRow where
  value : ℚ
  hour_of_day : ℕ
  day_of_week : ℕ
  rolling_mean_6h : Option ℚ
  rolling_std_6h : Option ℝ
  value_change_1h : Option ℚ
  deviation_from_daily_mean : Option ℚ

/-- `_engineer_features` at row `i` of a single `(plot, sensor_type)`
group (`ml_module/preprocessing.py`, lines 115-156, before the `fillna`
step). -/
noncomputable def engineerRow (rows : List (ℕ × ℚ)) (i : ℕ) : EngRow :=
  let vals := rows.map Prod.snd
  let t := (rows.getD i (0, 0)).1
  let v := vals.getD i 0
  { value := v
    hour_of_day := (t / 60) % 24
    day_of_week := (t / 1440) % 7
    rolling_mean_6h := rollingMean6h vals i
    rolling_std_6h := rollingStd6h vals i
    value_change_1h := valueChange1h vals i
    deviation_from_daily_mean := (dailyMean rows i).map (fun m => v - m) }

/-- The `fillna(0)` step of `_engineer_features`
(`ml_module/preprocessing.py`, lines 158-161): exactly the three columns
`rolling_std_6h`, `value_change_1h`, `deviation_from_daily_mean`. -/
noncomputable def fillnaRow (r : EngRow) : EngRow :=
  { r with
    rolling_std_6h := some (r.rolling_std_6h.getD 0)
    value_change_1h := some (r.value_change_1h.getD 0)
    deviation_from_daily_mean := some (r.deviation_from_daily_mean.getD 0) }

/-- The feature vector handed to the scorer after `np.nan_to_num(nan=0.0)`
(`ml_module/preprocessing.py`, lines 52, 96): every remaining `NaN`
becomes 0. -/
noncomputable def handedVector (r : EngRow) : List ℝ :=
  [(r.value : ℝ), (r.hour_of_day : ℝ), (r.day_of_week : ℝ),
    ((r.rolling_mean_6h.getD 0 : ℚ) : ℝ),
    r.rolling_std_6h.getD 0,
    ((r.value_change_1h.getD 0 : ℚ) : ℝ),
    ((r.deviation_from_daily_mean.getD 0 : ℚ) : ℝ)]

/-! ### Anomaly scenario injector (`simulator/anomaly_scenarios.py`)

Wall-clock instants (`datetime.now()`) are modelled as rational hours
since simulation start. -/

/-- Timing state of an `AnomalyScenario` (`simulator/anomaly_scenarios.py`,
lines 16-60): `start_hour`, `duration_minutes`, `is_active` and the
activation instant `start_time` (hours). -/
structure ScenarioTiming where
  start_hour : ℚ
  duration_minutes : ℚ
  is_active : Bool
  start_time : Option ℚ
deriving DecidableEq

/-- `AnomalyScenario.should_activate` (lines 37-39). -/
def shouldActivate (s : ScenarioTiming) (hours_since_start : ℚ) : Bool :=
  decide (s.start_hour ≤ hours_since_start) && !s.is_active

/-- `AnomalyScenario.is_expired` (lines 41-47): elapsed minutes since
activation at least `duration_minutes`. -/
def isExpired (s : ScenarioTiming) (now : ℚ) : Bool :=
  if s.is_active = false then false
  else
    match s.start_time with
    | none => false
    | some t0 => decide (s.duration_minutes ≤ (now - t0) * 60)

/-- One scenario's share of `AnomalyManager.update` (lines 238-249):
check activation, then check expiration. -/
def updateScenario (s : ScenarioTiming) (now : ℚ) : ScenarioTiming :=
  let s1 := if shouldActivate s now then
    { s with is_active := true, start_time := some now } else s
  if isExpired s1 now then { s1 with is_active := false } else s1

/-- The manager's update loop run over a list of tick instants. -/
def runUpdates (s : ScenarioTiming) (ticks : List ℚ) : ScenarioTiming :=
  ticks.foldl updateScenario s

/-- A registered scenario as `AnomalyManager.modify_reading` consumes it:
its activity flag and its `modify_reading` map. -/
structure Scenario (α : Type) where
  is_active : Bool
  modify : String → α → α

/-- `AnomalyManager.modify_reading` (lines 251-268): threads the value
through every registered scenario in order, active ones applying their
`modify`, inactive ones skipped. -/
def managerModifyReading {α : Type} (scenarios : List (Scenario α))
    (sensor_type : String) (normal_value : α) : α :=
  scenarios.foldl
    (fun acc s => if s.is_active then s.modify sensor_type acc else acc)
    normal_value

/-- `SuddenDropScenario.modify_reading` (lines 93-108) as a function of
the scenario's state and the current instant; times in minutes here,
matching `elapsed_minutes` of the source. -/
noncomputable def suddenDropModifyReading (is_active : Bool)
    (start_time now duration_minutes target_drop : ℝ)
    (sensor_type : String) (normal_value : ℝ) : ℝ :=
  if is_active = false then normal_value
  else if sensor_type = "moisture" then
    let elapsed_minutes := now - start_time
    let progress := min 1 (elapsed_minutes / duration_minutes)
    let drop := target_drop * (1 - Real.exp (-3 * progress))
    max 30 (normal_value - drop)
  else normal_value

/-! ### Theorems -/

/-- `predict` ignores the model entirely when validation fails
(`ml_module/detector.py`, lines 143-152). -/
theorem predict_invalid_eval (r : SReading) (model : Option Scorer)
    (hv : (validateSensorReading r).1 = false) :
    predict model r =
      { is_anomaly := true, confidence := 1, anomaly_score := none,
        anomaly_type := some "sensor_malfunction", severity := some "high",
        explanation := "Invalid sensor reading: " ++ (validateSensorReading r).2.getD "" } := by
  simp [predict, hv]

/-- C1: For every sensor reading whose value lies outside its absolute
physical bounds (moisture/humidity outside [0,100], temperature outside
[-20,60]) or whose sensor_type is unknown, `predict` returns a verdict
with `is_anomaly = true`, `anomaly_type = sensor_malfunction`,
`severity = high` and `confidence = 1.0`, and the trained scorer is never
invoked for that reading: the result is the same for every model. -/
theorem c1_out_of_bounds_malfunction_verdict (r : SReading) (model : Option Scorer)
    (h : (r.sensor_type = "moisture" ∧ (r.value < 0 ∨ 100 < r.value)) ∨
         (r.sensor_type = "temperature" ∧ (r.value < -20 ∨ 60 < r.value)) ∨
         (r.sensor_type = "humidity" ∧ (r.value < 0 ∨ 100 < r.value)) ∨
         sensorBounds r.sensor_type = none) :
    (predict model r).is_anomaly = true ∧
    (predict model r).confidence = 1 ∧
    (predict model r).anomaly_type = some "sensor_malfunction" ∧
    (predict model r).severity = some "high" ∧
    ∀ model' : Option Scorer, predict model' r = predict model r := by
  have hv : (validateSensorReading r).1 = false := by
    rcases h with ⟨hst, hval⟩ | ⟨hst, hval⟩ | ⟨hst, hval⟩ | hnone
    · simp [validateSensorReading, sensorBounds, hst, hval]
    · simp [validateSensorReading, sensorBounds, hst, hval]
    · simp [validateSensorReading, sensorBounds, hst, hval]
    · simp [validateSensorReading, hnone]
  rw [predict_invalid_eval r model hv]
  refine ⟨rfl, rfl, rfl, rfl, fun model' => ?_⟩
  rw [predict_invalid_eval r model' hv]

/-- Witness for C1 at the concrete reading (moisture, 150). -/
theorem c1_out_of_bounds_malfunction_verdict_witness :
    (predict none ⟨"moisture", 150⟩).is_anomaly = true ∧
    (predict none ⟨"moisture", 150⟩).confidence = 1 ∧
    (predict none ⟨"moisture", 150⟩).anomaly_type = some "sensor_malfunction" ∧
    (predict none ⟨"moisture", 150⟩).severity = some "high" ∧
    predict (some fun _ => Except.ok (1, 0)) ⟨"moisture", 150⟩ =
      predict none ⟨"moisture", 150⟩ := by
  have h := c1_out_of_bounds_malfunction_verdict ⟨"moisture", 150⟩ none
    (Or.inl ⟨rfl, Or.inr (by norm_num)⟩)
  exact ⟨h.1, h.2.1, h.2.2.1, h.2.2.2.1, h.2.2.2.2 _⟩

/-- C2 counterexample: the claim asserts that the rule-based table —
including severity `medium` for `cold_stress` — holds on every path that
invokes the classifier, including the no-model fallback path.  But the
fallback `_rule_based_detection` returns severity `high` for a
temperature reading of 5 (below `critical_low = 10`), not `medium`. -/
theorem c2_fallback_severity_counterexample :
    predict none ⟨"temperature", 5⟩ = ruleBasedDetection ⟨"temperature", 5⟩ ∧
    (ruleBasedDetection ⟨"temperature", 5⟩).anomaly_type = some "cold_stress" ∧
    (ruleBasedDetection ⟨"temperature", 5⟩).severity = some "high" ∧
    (ruleBasedDetection ⟨"temperature", 5⟩).severity ≠ some "medium" := by
  refine ⟨rfl, rfl, rfl, ?_⟩
  have h : (ruleBasedDetection ⟨"temperature", (5:ℚ)⟩).severity = some "high" := rfl
  rw [h]
  decide

/-- C2 amended: with the default thresholds, `_classify_anomaly` (the
classifier used on the scorer's anomaly branch) returns exactly the
claimed (type, severity) pairs: below `critical_low` moisture →
(irrigation_failure, high), temperature → (cold_stress, medium),
humidity → (dry_stress, medium); above `critical_high` temperature →
(heat_stress, high), humidity → (excess_moisture, medium), any other
sensor type → (sensor_malfunction, low).  The fallback path
`_rule_based_detection` assigns the same anomaly types but severity
`high` to every critical-threshold breach. -/
theorem c2_classifier_table_amended (v : ℚ) :
    (v < 35 → (classifyAnomaly ⟨"moisture", v⟩).1 = "irrigation_failure" ∧
              (classifyAnomaly ⟨"moisture", v⟩).2.1 = "high") ∧
    (v < 10 → (classifyAnomaly ⟨"temperature", v⟩).1 = "cold_stress" ∧
              (classifyAnomaly ⟨"temperature", v⟩).2.1 = "medium") ∧
    (v < 30 → (classifyAnomaly ⟨"humidity", v⟩).1 = "dry_stress" ∧
              (classifyAnomaly ⟨"humidity", v⟩).2.1 = "medium") ∧
    (35 < v → (classifyAnomaly ⟨"temperature", v⟩).1 = "heat_stress" ∧
              (classifyAnomaly ⟨"temperature", v⟩).2.1 = "high") ∧
    (85 < v → (classifyAnomaly ⟨"humidity", v⟩).1 = "excess_moisture" ∧
              (classifyAnomaly ⟨"humidity", v⟩).2.1 = "medium") ∧
    (85 < v → (classifyAnomaly ⟨"moisture", v⟩).1 = "sensor_malfunction" ∧
              (classifyAnomaly ⟨"moisture", v⟩).2.1 = "low") ∧
    (v < 35 → (ruleBasedDetection ⟨"moisture", v⟩).anomaly_type = some "irrigation_failure" ∧
              (ruleBasedDetection ⟨"moisture", v⟩).severity = some "high") ∧
    (v < 10 → (ruleBasedDetection ⟨"temperature", v⟩).anomaly_type = some "cold_stress" ∧
              (ruleBasedDetection ⟨"temperature", v⟩).severity = some "high") ∧
    (v < 30 → (ruleBasedDetection ⟨"humidity", v⟩).anomaly_type = some "dry_stress" ∧
              (ruleBasedDetection ⟨"humidity", v⟩).severity = some "high") ∧
    (35 < v → (ruleBasedDetection ⟨"temperature", v⟩).anomaly_type = some "heat_stress" ∧
              (ruleBasedDetection ⟨"temperature", v⟩).severity = some "high") ∧
    (85 < v → (ruleBasedDetection ⟨"humidity", v⟩).anomaly_type = some "excess_moisture" ∧
              (ruleBasedDetection ⟨"humidity", v⟩).severity = some "high") ∧
    (85 < v → (ruleBasedDetection ⟨"moisture", v⟩).anomaly_type = some "sensor_malfunction" ∧
              (ruleBasedDetection ⟨"moisture", v⟩).severity = some "high") := by
  refine ⟨fun h => ?_, fun h => ?_, fun h => ?_, fun h => ?_, fun h => ?_, fun h => ?_,
    fun h => ?_, fun h => ?_, fun h => ?_, fun h => ?_, fun h => ?_, fun h => ?_⟩
  · simp [classifyAnomaly, THRESHOLDS, h]
  · simp [classifyAnomaly, THRESHOLDS, h]
  · simp [classifyAnomaly, THRESHOLDS, h]
  · have hn : ¬ v < 10 := by linarith
    simp [classifyAnomaly, THRESHOLDS, hn, h]
  · have hn : ¬ v < 30 := by linarith
    simp [classifyAnomaly, THRESHOLDS, hn, h]
  · have hn : ¬ v < 35 := by linarith
    simp [classifyAnomaly, THRESHOLDS, hn, h]
  · simp [ruleBasedDetection, THRESHOLDS, h]
  · simp [ruleBasedDetection, THRESHOLDS, h]
  · simp [ruleBasedDetection, THRESHOLDS, h]
  · have hn : ¬ v < 10 := by linarith
    simp [ruleBasedDetection, THRESHOLDS, hn, h]
  · have hn : ¬ v < 30 := by linarith
    simp [ruleBasedDetection, THRESHOLDS, hn, h]
  · have hn : ¬ v < 35 := by linarith
    simp [ruleBasedDetection, THRESHOLDS, hn, h]

/-- Witness for the amended C2 at temperature 5 and humidity 90. -/
theorem c2_classifier_table_amended_witness :
    ((classifyAnomaly ⟨"temperature", 5⟩).1 = "cold_stress" ∧
     (classifyAnomaly ⟨"temperature", 5⟩).2.1 = "medium") ∧
    ((ruleBasedDetection ⟨"humidity", 90⟩).anomaly_type = some "excess_moisture" ∧
     (ruleBasedDetection ⟨"humidity", 90⟩).severity = some "high") := by
  exact ⟨(c2_classifier_table_amended 5).2.1 (by norm_num),
    (c2_classifier_table_amended 90).2.2.2.2.2.2.2.2.2.2.1 (by norm_num)⟩

/-- C3: `train` with fewer than 50 samples fails with the
insufficient-data error and leaves the previously held model unchanged;
with 50 or more samples it succeeds and replaces the held model with the
freshly fitted one (`ml_module/detector.py`, lines 70-92). -/
theorem c3_train_sample_gate {Model : Type} (fit : List SReading → Model)
    (held : Option Model) (readings : List SReading) :
    (readings.length < 50 →
      (trainStep fit held readings).1 = held ∧
      ∃ msg, (trainStep fit held readings).2 = Except.error msg) ∧
    (50 ≤ readings.length →
      (trainStep fit held readings).1 = some (fit readings) ∧
      (trainStep fit held readings).2 = Except.ok ()) := by
  constructor
  · intro h
    simp [trainStep, h]
  · intro h
    simp [trainStep, Nat.not_lt.mpr h]

/-- Witness for C3 at 49 and 50 samples. -/
theorem c3_train_sample_gate_witness :
    (trainStep List.length (some 7) (List.replicate 49 (⟨"moisture", 50⟩ : SReading))).1 = some 7 ∧
    (∃ msg, (trainStep List.length (some 7)
      (List.replicate 49 (⟨"moisture", 50⟩ : SReading))).2 = Except.error msg) ∧
    (trainStep List.length (some 7) (List.replicate 50 (⟨"moisture", 50⟩ : SReading))).1 = some 50 ∧
    (trainStep List.length (some 7)
      (List.replicate 50 (⟨"moisture", 50⟩ : SReading))).2 = Except.ok () := by
  have h49 := (c3_train_sample_gate List.length (some 7)
    (List.replicate 49 ⟨"moisture", 50⟩)).1 (by simp)
  have h50 := (c3_train_sample_gate List.length (some 7)
    (List.replicate 50 ⟨"moisture", 50⟩)).2 (by simp)
  refine ⟨h49.1, h49.2, ?_, h50.2⟩
  rw [h50.1]
  simp

/-- C4: for every in-bounds reading, `predict` is a total function into
complete verdicts (it is defined as a total Lean function), and it
degrades to the rule-based fallback both when no model is held and when
the scorer (feature preparation, scaling or inference) fails
(`ml_module/detector.py`, lines 154-197). -/
theorem c4_inbounds_degrades_to_fallback (r : SReading) (f : Scorer) (e : String)
    (hvalid : (validateSensorReading r).1 = true) :
    predict none r = ruleBasedDetection r ∧
    (f r = Except.error e → predict (some f) r = ruleBasedDetection r) := by
  constructor
  · simp [predict, hvalid]
  · intro hf
    simp [predict, hvalid, hf]

/-- Witness for C4 at the in-bounds reading (moisture, 50) and a scorer
that always fails. -/
theorem c4_inbounds_degrades_to_fallback_witness :
    predict none ⟨"moisture", 50⟩ = ruleBasedDetection ⟨"moisture", 50⟩ ∧
    predict (some fun _ => Except.error "boom") ⟨"moisture", 50⟩ =
      ruleBasedDetection ⟨"moisture", 50⟩ := by
  have h := c4_inbounds_degrades_to_fallback ⟨"moisture", 50⟩
    (fun _ => Except.error "boom") "boom" rfl
  exact ⟨h.1, h.2 rfl⟩

/-- C5 is false of the code: `should_activate` only requires elapsed
hours at least `start_hour` and the scenario not currently active, so a
scenario that expired is reactivated at the very next update tick.
Concretely, a scenario with `start_hour = 1` and `duration_minutes = 120`
activates at the 1h tick, expires and deactivates at the 3.5h tick, and
is active again after the 4h tick — `expired` is not terminal
(`simulator/anomaly_scenarios.py`, lines 37-39 and 238-249). -/
theorem c5_expired_scenario_reactivates :
    (runUpdates ⟨1, 120, false, none⟩ [1]).is_active = true ∧
    (runUpdates ⟨1, 120, false, none⟩ [1, 7/2]).is_active = false ∧
    (runUpdates ⟨1, 120, false, none⟩ [1, 7/2, 4]).is_active = true := by
  refine ⟨?_, ?_, ?_⟩
  · norm_num [runUpdates, updateScenario, shouldActivate, isExpired]
  · norm_num [runUpdates, updateScenario, shouldActivate, isExpired]
  · norm_num [runUpdates, updateScenario, shouldActivate, isExpired]

/-- C7: the score-to-confidence mapping is `clamp(-score, 0, 1)`: its
result lies in [0,1] and it is monotonically non-increasing in the raw
score (`ml_module/detector.py`, lines 291-304). -/
theorem c7_confidence_clamped_antitone (s s1 s2 : ℚ) (h : s1 < s2) :
    (0 ≤ scoreToConfidence s ∧ scoreToConfidence s ≤ 1) ∧
    scoreToConfidence s2 ≤ scoreToConfidence s1 := by
  refine ⟨⟨le_min (le_max_right _ _) zero_le_one, min_le_right _ _⟩, ?_⟩
  exact min_le_min (max_le_max (neg_le_neg h.le) le_rfl) le_rfl

/-- Witness for C7 at scores 0 and 1. -/
theorem c7_confidence_clamped_antitone_witness :
    (0 ≤ scoreToConfidence 0 ∧ scoreToConfidence 0 ≤ 1) ∧
    scoreToConfidence 1 ≤ scoreToConfidence 0 :=
  c7_confidence_clamped_antitone 0 0 1 (by norm_num)

/-- The fold of `AnomalyManager.modify_reading` equals the sequential
application of the active scenarios' `modify`, in registration order. -/
theorem managerModifyReading_eq_filter_foldl {α : Type} (scs : List (Scenario α))
    (st : String) (v : α) :
    managerModifyReading scs st v =
      (scs.filter (fun s => s.is_active)).foldl (fun acc s => s.modify st acc) v := by
  induction scs generalizing v with
  | nil => rfl
  | cons s t ih =>
    by_cases hs : s.is_active
    · have hstep : managerModifyReading (s :: t) st v =
        managerModifyReading t st (s.modify st v) := by
        simp [managerModifyReading, hs]
      rw [hstep, List.filter_cons, if_pos (by simpa using hs), List.foldl_cons, ih]
    · have hstep : managerModifyReading (s :: t) st v = managerModifyReading t st v := by
        simp [managerModifyReading, hs]
      rw [hstep, List.filter_cons, if_neg (by simpa using hs), ih]

/-- C9: `AnomalyManager.modify_reading` applies every currently-active
registered scenario's `modify` sequentially in registration order, each
consuming the previous scenario's output, returning one combined value;
inactive scenarios are skipped, and with no active scenario the baseline
is returned unchanged (`simulator/anomaly_scenarios.py`, lines 251-268). -/
theorem c9_manager_sequential_composition {α : Type} (scs : List (Scenario α))
    (st : String) (v : α) (s1 s2 : Scenario α)
    (h1 : s1.is_active = true) (h2 : s2.is_active = true) :
    managerModifyReading scs st v =
      (scs.filter (fun s => s.is_active)).foldl (fun acc s => s.modify st acc) v ∧
    ((∀ s ∈ scs, s.is_active = false) → managerModifyReading scs st v = v) ∧
    managerModifyReading [s1, s2] st v = s2.modify st (s1.modify st v) := by
  refine ⟨managerModifyReading_eq_filter_foldl scs st v, ?_, ?_⟩
  · intro hall
    induction scs generalizing v with
    | nil => rfl
    | cons s t ih =>
      have hs : s.is_active = false := hall s (List.mem_cons_self s t)
      have hstep : managerModifyReading (s :: t) st v = managerModifyReading t st v := by
        simp [managerModifyReading, hs]
      rw [hstep]
      exact ih v (fun x hx => hall x (List.mem_cons_of_mem s hx))
  · simp [managerModifyReading, h1, h2]

/-- Witness for C9: a drop-then-double pair of active scenarios combines
to a single value, and an empty registry returns the baseline. -/
theorem c9_manager_sequential_composition_witness :
    managerModifyReading ([] : List (Scenario ℚ)) "moisture" 5 = 5 ∧
    managerModifyReading
      [⟨true, fun _ x => x - 1⟩, ⟨true, fun _ x => x * 2⟩] "moisture" (5:ℚ) = 8 := by
  have h := c9_manager_sequential_composition ([] : List (Scenario ℚ)) "moisture" 5
    ⟨true, fun _ x => x - 1⟩ ⟨true, fun _ x => x * 2⟩ rfl rfl
  refine ⟨h.2.1 (fun s hs => absurd hs (List.not_mem_nil s)), ?_⟩
  rw [h.2.2]
  norm_num

/-- Lower bound `75/17 < e^1.5`, from the digit bounds on `e`. -/
theorem exp_three_halves_lb : (75:ℝ)/17 < Real.exp (3/2) := by
  have hE1 : (2.7182818283:ℝ) < Real.exp 1 := Real.exp_one_gt_d9
  have hEpos : (0:ℝ) < Real.exp 1 := Real.exp_pos 1
  have hsq : Real.exp (3/2) ^ 2 = Real.exp 1 ^ 3 := by
    rw [← Real.exp_nat_mul, ← Real.exp_nat_mul]
    norm_num
  have hlo : (2.7:ℝ) < Real.exp 1 := by linarith
  have h1 : (2.7:ℝ)^2 < Real.exp 1 ^ 2 := by nlinarith
  have h2 : (2.7:ℝ)^3 < Real.exp 1 ^ 3 := by nlinarith
  have hypos : (0:ℝ) < Real.exp (3/2) := Real.exp_pos _
  nlinarith [hsq, h2, hypos]

/-- Upper bound `e^1.5 < 50/11`, from the digit bounds on `e`. -/
theorem exp_three_halves_ub : Real.exp (3/2) < (50:ℝ)/11 := by
  have hE2 : Real.exp 1 < 2.7182818286 := Real.exp_one_lt_d9
  have hEpos : (0:ℝ) < Real.exp 1 := Real.exp_pos 1
  have hsq : Real.exp (3/2) ^ 2 = Real.exp 1 ^ 3 := by
    rw [← Real.exp_nat_mul, ← Real.exp_nat_mul]
    norm_num
  have hhi : Real.exp 1 < 2.72 := by linarith
  have h1 : Real.exp 1 ^ 2 < (2.72:ℝ)^2 := by nlinarith
  have h2 : Real.exp 1 ^ 3 < (2.72:ℝ)^3 := by nlinarith
  have hypos : (0:ℝ) < Real.exp (3/2) := Real.exp_pos _
  nlinarith [hsq, h2, hypos]

/-- The drop of the sudden-drop scenario at progress one half:
`15 × (1 − e^(−1.5))` lies strictly between 11.6 and 11.7. -/
theorem sudden_drop_at_half_progress :
    (11.6:ℝ) < 15 * (1 - Real.exp (-(3:ℝ)/2)) ∧
    15 * (1 - Real.exp (-(3:ℝ)/2)) < 11.7 := by
  have hpos : (0:ℝ) < Real.exp (3/2) := Real.exp_pos _
  have hneg : Real.exp (-(3:ℝ)/2) = (Real.exp (3/2))⁻¹ := by
    rw [← Real.exp_neg]
    norm_num
  have hinv : Real.exp (3/2) * (Real.exp (3/2))⁻¹ = 1 := mul_inv_cancel₀ (ne_of_gt hpos)
  have hzpos : (0:ℝ) < (Real.exp (3/2))⁻¹ := inv_pos.mpr hpos
  constructor
  · have hz : (Real.exp (3/2))⁻¹ < 17/75 := by
      nlinarith [exp_three_halves_lb, mul_pos (sub_pos.mpr exp_three_halves_lb) hzpos]
    rw [hneg]
    linarith
  · have hz : (11:ℝ)/50 < (Real.exp (3/2))⁻¹ := by
      nlinarith [exp_three_halves_ub, mul_pos (sub_pos.mpr exp_three_halves_ub) hzpos]
    rw [hneg]
    linarith

/-- Evaluation of `SuddenDropScenario.modify_reading` on the active
moisture branch. -/
theorem suddenDrop_active_moisture_eval (t0 now dm td b : ℝ) :
    suddenDropModifyReading true t0 now dm td "moisture" b =
      max 30 (b - td * (1 - Real.exp (-3 * min 1 ((now - t0) / dm)))) := by
  simp [suddenDropModifyReading]

/-- C6 counterexample: the claim's numeric instance is wrong.  With
start of the active window at `t0 = 0`, at 60 minutes into a 120-minute
window with `target_drop = 15` and baseline moisture 80, the code
returns a value strictly above 68, whereas the claimed drop of about
12.66 would put `baseline − drop` below 67.4. -/
theorem c6_drop_numeric_counterexample :
    (68:ℝ) < suddenDropModifyReading true 0 60 120 15 "moisture" 80 ∧
    suddenDropModifyReading true 0 60 120 15 "moisture" 80 < 68.4 ∧
    (80:ℝ) - 12.66 < 67.4 := by
  have heval := suddenDrop_active_moisture_eval 0 60 120 15 80
  have hmin : min (1:ℝ) ((60 - 0) / 120) = 1/2 := by
    rw [min_eq_right]
    · norm_num
    · norm_num
  rw [hmin] at heval
  have harg : (-3:ℝ) * (1/2) = -(3:ℝ)/2 := by norm_num
  rw [harg] at heval
  have hd := sudden_drop_at_half_progress
  have hmax : max (30:ℝ) (80 - 15 * (1 - Real.exp (-(3:ℝ)/2))) =
      80 - 15 * (1 - Real.exp (-(3:ℝ)/2)) := by
    rw [max_eq_right]
    linarith [hd.1, hd.2]
  rw [heval, hmax]
  refine ⟨by linarith [hd.2], by linarith [hd.1], by norm_num⟩

/-- C6 amended: while a SuddenDrop scenario is active and the sensor is
the targeted moisture sensor, the modified value is
`max(30, baseline − drop)` with `drop = target_drop × (1 − e^(−3p))` and
`p = min(1, elapsed/duration)`; with duration 120 min and target drop 15,
at 60 minutes into the active window (`p = 0.5`) the drop is
`15 × (1 − e^(−1.5)) ≈ 11.65` (strictly between 11.6 and 11.7), not
12.66; for a non-targeted sensor type or while not active the value is
unchanged (`simulator/anomaly_scenarios.py`, lines 93-108). -/
theorem c6_sudden_drop_amended (b t0 dm td now : ℝ) (st : String) :
    suddenDropModifyReading true t0 (t0 + 60) 120 15 "moisture" b =
      max 30 (b - 15 * (1 - Real.exp (-(3:ℝ)/2))) ∧
    (11.6:ℝ) < 15 * (1 - Real.exp (-(3:ℝ)/2)) ∧
    15 * (1 - Real.exp (-(3:ℝ)/2)) < 11.7 ∧
    (st ≠ "moisture" → suddenDropModifyReading true t0 now dm td st b = b) ∧
    suddenDropModifyReading false t0 now dm td st b = b := by
  refine ⟨?_, sudden_drop_at_half_progress.1, sudden_drop_at_half_progress.2, ?_, ?_⟩
  · have heval := suddenDrop_active_moisture_eval t0 (t0 + 60) 120 15 b
    have hmin : min (1:ℝ) ((t0 + 60 - t0) / 120) = 1/2 := by
      rw [show (t0 + 60 - t0 : ℝ) = 60 by ring, min_eq_right]
      · norm_num
      · norm_num
    rw [hmin] at heval
    have harg : (-3:ℝ) * (1/2) = -(3:ℝ)/2 := by norm_num
    rw [harg] at heval
    exact heval
  · intro hst
    simp [suddenDropModifyReading, hst]
  · simp [suddenDropModifyReading]

/-- Witness for the amended C6 at baseline 80 and sensor types moisture
and temperature. -/
theorem c6_sudden_drop_amended_witness :
    suddenDropModifyReading true 0 60 120 15 "moisture" 80 =
      max 30 (80 - 15 * (1 - Real.exp (-(3:ℝ)/2))) ∧
    suddenDropModifyReading true 0 60 120 15 "temperature" 80 = 80 ∧
    suddenDropModifyReading false 0 60 120 15 "temperature" 80 = 80 := by
  have h := c6_sudden_drop_amended 80 0 120 15 60 "temperature"
  have h1 := h.1
  rw [zero_add] at h1
  exact ⟨h1, h.2.2.2.1 (by decide), h.2.2.2.2⟩

/-- C10: while a SuddenDrop scenario with nonnegative elapsed time,
positive duration and nonnegative target drop is active, its output on
the targeted moisture sensor is at least 30 and never exceeds
`max(baseline, 30)`; for a baseline strictly below 30 the output is
exactly 30, strictly above the baseline
(`simulator/anomaly_scenarios.py`, lines 93-108). -/
theorem c10_sudden_drop_floor_invariant (b t0 now dm td : ℝ)
    (h0 : t0 ≤ now) (hdm : 0 < dm) (htd : 0 ≤ td) :
    30 ≤ suddenDropModifyReading true t0 now dm td "moisture" b ∧
    suddenDropModifyReading true t0 now dm td "moisture" b ≤ max b 30 ∧
    (b < 30 → suddenDropModifyReading true t0 now dm td "moisture" b = 30 ∧
      b < suddenDropModifyReading true t0 now dm td "moisture" b) := by
  rw [suddenDrop_active_moisture_eval]
  have hp0 : 0 ≤ min 1 ((now - t0) / dm) :=
    le_min zero_le_one (div_nonneg (by linarith) hdm.le)
  have hexp : Real.exp (-3 * min 1 ((now - t0) / dm)) ≤ 1 :=
    Real.exp_le_one_iff.mpr (by nlinarith)
  have hdrop : 0 ≤ td * (1 - Real.exp (-3 * min 1 ((now - t0) / dm))) :=
    mul_nonneg htd (by linarith)
  refine ⟨le_max_left _ _, ?_, ?_⟩
  · exact max_le (le_max_right b 30) (le_trans (by linarith) (le_max_left b 30))
  · intro hb
    have heq : max (30:ℝ) (b - td * (1 - Real.exp (-3 * min 1 ((now - t0) / dm)))) = 30 :=
      max_eq_left (by linarith)
    rw [heq]
    exact ⟨rfl, hb⟩

/-- Witness for C10 at baseline 20, 60 minutes into a 120-minute window
with target drop 15. -/
theorem c10_sudden_drop_floor_invariant_witness :
    ((0:ℝ) ≤ 60 ∧ (0:ℝ) < 120 ∧ (0:ℝ) ≤ 15) ∧
    30 ≤ suddenDropModifyReading true 0 60 120 15 "moisture" 20 ∧
    suddenDropModifyReading true 0 60 120 15 "moisture" 20 = 30 := by
  have h := c10_sudden_drop_floor_invariant 20 0 60 120 15
    (by norm_num) (by norm_num) (by norm_num)
  exact ⟨⟨by norm_num, by norm_num, by norm_num⟩, h.1, (h.2.2 (by norm_num)).1⟩

/-- Length of the trailing rolling window: `min (i+1) 12` for a valid
index. -/
theorem rollingWindow_length (vals : List ℚ) (i : ℕ) (hi : i < vals.length) :
    (rollingWindow vals i).length = min (i + 1) 12 := by
  simp only [rollingWindow, List.length_drop, List.length_take]
  omega

/-- C8: in feature engineering, `rolling_std_6h` is emitted as 0 (not
NaN) whenever the trailing window holds exactly one sample,
`value_change_1h` is emitted as 0 for the first two readings of the
group, and after the `fillna` coercion every feature of the row is a
defined number — no NaN reaches the scorer
(`ml_module/preprocessing.py`, lines 115-163). -/
theorem c8_features_no_nan (rows : List (ℕ × ℚ)) (i : ℕ) (hi : i < rows.length) :
    ((rollingWindow (rows.map Prod.snd) i).length = 1 →
      (fillnaRow (engineerRow rows i)).rolling_std_6h = some 0) ∧
    (i < 2 → (fillnaRow (engineerRow rows i)).value_change_1h = some 0) ∧
    (fillnaRow (engineerRow rows i)).rolling_mean_6h.isSome = true ∧
    (fillnaRow (engineerRow rows i)).rolling_std_6h.isSome = true ∧
    (fillnaRow (engineerRow rows i)).value_change_1h.isSome = true ∧
    (fillnaRow (engineerRow rows i)).deviation_from_daily_mean.isSome = true := by
  have hw : (rollingWindow (rows.map Prod.snd) i).length ≠ 0 := by
    have hi' : i < (rows.map Prod.snd).length := by simpa using hi
    rw [rollingWindow_length _ _ hi']
    omega
  refine ⟨?_, ?_, ?_, ?_, ?_, ?_⟩
  · intro h1
    simp [fillnaRow, engineerRow, rollingStd6h, h1]
  · intro h2
    simp [fillnaRow, engineerRow, valueChange1h, h2]
  · simp [fillnaRow, engineerRow, rollingMean6h, hw]
  · simp [fillnaRow]
  · simp [fillnaRow]
  · simp [fillnaRow]

/-- Witness for C8 on a two-reading group at its first position. -/
theorem c8_features_no_nan_witness :
    (fillnaRow (engineerRow [(0, 5), (30, 7)] 0)).rolling_std_6h = some 0 ∧
    (fillnaRow (engineerRow [(0, 5), (30, 7)] 0)).value_change_1h = some 0 ∧
    (fillnaRow (engineerRow [(0, 5), (30, 7)] 0)).rolling_mean_6h.isSome = true := by
  have h := c8_features_no_nan [(0, 5), (30, 7)] 0 (by norm_num)
  exact ⟨h.1 rfl, h.2.1 (by norm_num), h.2.2.1⟩

end CropMonitor
